import Mathlib

/-!
Verification development for the Normattiva / Akoma Ntoso knowledge-base core.

The Python modules under `app/` are shallowly embedded below:

* `app/parsing/references.py`   — reference extraction (regexes, snippets)
* `app/parsing/urn_resolver.py` — URN resolution priority chain
* `app/parsing/akoma_parser.py` — structural Akoma Ntoso parsing (in-memory
  and streaming modes)
* `app/parsing/normattiva_parser.py` — legacy-dialect article parsing
* `app/analysis/conflict_detector.py` — temporal conflict detection
* `app/cli.py`                  — candidate canonicalization, breadcrumbs
* `app/core/tag_config.py`, `app/core/utils_text.py`,
  `app/core/utils_ids.py`      — shared taxonomy and text utilities

Strings are modelled as `List Char` internally (with `String` wrappers),
Python `None` for optional strings as `Option String`, Python `float`
confidences as naturals counting hundredths (every confidence literal in
the source is an exact two-digit decimal, so this encoding is exact and
order-preserving), and `datetime.date` values as natural numbers in
`yyyymmdd` form, an encoding that preserves the calendar order used by
the source comparisons.  Python regexes are embedded through a
small backtracking matcher over a token language that covers exactly the
constructs appearing in the source patterns (case-insensitive literals,
character classes with bounded greedy or lazy repetition, alternation,
optional groups, capturing groups, and word boundaries).
-/

namespace S2P

/-! ## Python character and string primitives -/

/-- Python `str.isspace`-style whitespace as used by `re` class `\s`
(ASCII part: space, tab, newline, carriage return, form feed, vertical
tab); the source texts are ASCII. -/
def pyIsSpace (c : Char) : Bool :=
  c = ' ' || c = '\t' || c = '\n' || c = '\r' || c = '\x0b' || c = '\x0c'

/-- Regex `\d`. -/
def pyIsDigit (c : Char) : Bool :=
  '0' ≤ c && c ≤ '9'

/-- Regex `\w` (ASCII part): letters, digits, underscore. -/
def pyIsWord (c : Char) : Bool :=
  ('a' ≤ c && c ≤ 'z') || ('A' ≤ c && c ≤ 'Z') || pyIsDigit c || c = '_'

/-- ASCII lower-casing, as applied by `str.lower` and `re.IGNORECASE` on
the ASCII inputs of this code base. -/
def pyLower (c : Char) : Char :=
  if 'A' ≤ c && c ≤ 'Z' then Char.ofNat (c.toNat + 32) else c

def lowerL (s : List Char) : List Char := s.map pyLower

/-- `str.strip()` on a character list. -/
def pyStripL (s : List Char) : List Char :=
  ((s.dropWhile pyIsSpace).reverse.dropWhile pyIsSpace).reverse

def pyStrip (s : String) : String := String.mk (pyStripL s.data)

/-- Does `pat` occur as a contiguous sublist of `s`?  (Python `in`.) -/
def containsL (s pat : List Char) : Bool :=
  decide (pat <:+: s)

/-- Index of the first occurrence of `pat` in `s` (Python `str.index`),
or `s.length` when absent. -/
def indexOfL (s pat : List Char) : Nat :=
  match s with
  | [] => if pat = [] then 0 else 0
  | _ :: rest => if pat <+: s then 0 else indexOfL rest pat + 1

/-- Python lexicographic string comparison `a <= b` (by code points,
a proper prefix is smaller). -/
def pyLeL (a b : List Char) : Bool :=
  match a, b with
  | [], _ => true
  | _ :: _, [] => false
  | x :: xs, y :: ys =>
    if x.toNat < y.toNat then true
    else if y.toNat < x.toNat then false
    else pyLeL xs ys

def pyStrLe (a b : String) : Bool := pyLeL a.data b.data

/-- Python `str.split()` with no argument: split on whitespace runs,
dropping empty fields. -/
def pySplitWsGo (cur : List Char) (acc : List (List Char)) :
    List Char → List (List Char)
  | [] => if cur = [] then acc.reverse else (cur.reverse :: acc).reverse
  | c :: rest =>
    if pyIsSpace c then
      if cur = [] then pySplitWsGo [] acc rest
      else pySplitWsGo [] (cur.reverse :: acc) rest
    else pySplitWsGo (c :: cur) acc rest

def pySplitWs (s : String) : List String :=
  (pySplitWsGo [] [] s.data).map String.mk

/-- Python truthiness of an optional string (`None` and `""` are falsy). -/
def optTruthy : Option String → Bool
  | none => false
  | some s => s ≠ ""

/-- Python `a or b` over optional strings. -/
def pyOrOpt (a b : Option String) : Option String :=
  if optTruthy a then a else b

/-! ## A tiny backtracking regex engine

Only the constructs used by the patterns of `references.py` and
`urn_resolver.py` are represented.  `matchToks` returns the list of all
ways a token sequence can match a prefix of the input, in the priority
order mandated by Python `re` backtracking (alternatives left to right,
greedy repetitions longest first, lazy repetitions shortest first);
`reSearchFrom` scans start positions left to right and keeps the first
successful position, which is exactly `re.search` semantics. -/

inductive Tok where
  /-- a character class repeated between `lo` and `hi` times
  (`none` = unbounded), greedy or lazy -/
  | cls (p : Char → Bool) (lo : Nat) (hi : Option Nat) (lazyRep : Bool)
  /-- a case-insensitive literal (stored lower-case) -/
  | lit (cs : List Char)
  /-- alternation of token sequences, tried left to right -/
  | alt (bs : List (List Tok))
  /-- an optional (greedy) token sequence -/
  | opt (b : List Tok)
  /-- a capturing group -/
  | grp (i : Nat) (b : List Tok)
  /-- word boundary `\b` -/
  | wb

/-- One way the engine can match: remaining input, last consumed
character (for `\b`), captures by group index. -/
structure MRes where
  rest : List Char
  prev : Option Char
  caps : List (Nat × List Char)

/-- Length of the longest prefix of `s` satisfying `p`. -/
def runLen (p : Char → Bool) : List Char → Nat
  | [] => 0
  | c :: rest => if p c then runLen p rest + 1 else 0

/-- The character preceding the position after consuming `n` characters
of `s`, given the previous character `prev`. -/
def prevAfter (prev : Option Char) (s : List Char) (n : Nat) : Option Char :=
  if n = 0 then prev else (s.take n).getLast?

/-- Is there a word boundary between `prev` and the head of `s`? -/
def atBoundary (prev : Option Char) (s : List Char) : Bool :=
  let wl := match prev with | none => false | some c => pyIsWord c
  let wr := match s with | [] => false | c :: _ => pyIsWord c
  wl != wr

def matchToks (fuel : Nat) (toks : List Tok) (prev : Option Char)
    (s : List Char) (caps : List (Nat × List Char)) : List MRes :=
  match fuel with
  | 0 => []
  | fuel + 1 =>
    match toks with
    | [] => [⟨s, prev, caps⟩]
    | t :: rest =>
      match t with
      | .lit cs =>
        if lowerL (s.take cs.length) = cs && cs.length ≤ s.length then
          matchToks fuel rest (prevAfter prev s cs.length) (s.drop cs.length) caps
        else []
      | .cls p lo hi lazyRep =>
        let m := runLen p s
        let hiv := min m (hi.getD m)
        if lo > hiv then []
        else
          let counts := (List.range (hiv + 1 - lo)).map (· + lo)
          let ordered := if lazyRep then counts else counts.reverse
          ordered.flatMap fun n =>
            matchToks fuel rest (prevAfter prev s n) (s.drop n) caps
      | .alt bs =>
        bs.flatMap fun b => matchToks fuel (b ++ rest) prev s caps
      | .opt b =>
        matchToks fuel (b ++ rest) prev s caps ++ matchToks fuel rest prev s caps
      | .grp i b =>
        (matchToks fuel b prev s []).flatMap fun r =>
          matchToks fuel rest r.prev r.rest
            (caps ++ r.caps ++ [(i, s.take (s.length - r.rest.length))])
      | .wb =>
        if atBoundary prev s then matchToks fuel rest prev s caps else []

/-- Fuel bound: along any single backtracking branch the engine
processes each (flattened) token and each consumed character once, so
input length plus a generous pattern allowance is ample. -/
def engineFuel (s : List Char) : Nat := s.length + 1000

/-- One `re` match: start offset, matched length, captures. -/
structure RMatch where
  start : Nat
  len : Nat
  caps : List (Nat × List Char)

/-- Try to match `toks` exactly at offset `i` of `s`. -/
def matchAt (toks : List Tok) (s : List Char) (i : Nat) : Option RMatch :=
  let tail := s.drop i
  let prev := if i = 0 then none else (s.take i).getLast?
  match (matchToks (engineFuel s) toks prev tail []).head? with
  | none => none
  | some r => some ⟨i, tail.length - r.rest.length, r.caps⟩

/-- `re.search` from offset `i`, with enough fuel to reach the end of
the input (first matching start position wins). -/
def reSearchGo (toks : List Tok) (s : List Char) : Nat → Nat → Option RMatch
  | 0, _ => none
  | fuel + 1, i =>
    if s.length < i then none
    else
      match matchAt toks s i with
      | some m => some m
      | none => reSearchGo toks s fuel (i + 1)

def reSearchFrom (toks : List Tok) (s : List Char) (i : Nat) : Option RMatch :=
  reSearchGo toks s (s.length + 1 - i) i

def reSearch (toks : List Tok) (s : List Char) : Option RMatch :=
  reSearchFrom toks s 0

/-- `re.finditer`: non-overlapping matches, scanning left to right and
resuming at each match end (the source patterns never match empty). -/
def reFindAll (toks : List Tok) (s : List Char) : List RMatch :=
  go (s.length + 1) 0
where
  go : Nat → Nat → List RMatch
    | 0, _ => []
    | fuel + 1, i =>
      match reSearchFrom toks s i with
      | none => []
      | some m => m :: go fuel (m.start + max m.len 1)

/-- Captured group `i` of a match (Python `m.group(i)`, `None` when the
group did not participate). -/
def capGet (m : RMatch) (i : Nat) : Option String :=
  match m.caps.find? (fun c => c.1 = i) with
  | none => none
  | some c => some (String.mk c.2)

/-- The matched text `m.group(0)`. -/
def matchedText (s : List Char) (m : RMatch) : String :=
  String.mk ((s.drop m.start).take m.len)

/-- Python slice `t[st:en]` for natural `st ≤ en` bounds (Lean `Nat`
subtraction reproduces the clamping of `max(0, ·)` / `min(len, ·)`). -/
def sliceL (t : List Char) (st en : Nat) : List Char :=
  (t.drop st).take (en - st)

/-! ## `app/parsing/references.py` -/

/-- Regex class `\s` repeated. -/
def wsCls (lo : Nat) (hi : Option Nat) : Tok := .cls pyIsSpace lo hi false

/-- Regex class `\d` repeated (greedy). -/
def digCls (lo : Nat) (hi : Option Nat) : Tok := .cls pyIsDigit lo hi false

/-- Regex class `[a-z]` under `re.IGNORECASE`. -/
def azP (c : Char) : Bool := 'a' ≤ pyLower c && pyLower c ≤ 'z'

/-- Regex class `[a-z-]` under `re.IGNORECASE`. -/
def azDashP (c : Char) : Bool := azP c || c = '-'

/-- Regex `.` (any character except newline). -/
def anyP (c : Char) : Bool := c ≠ '\n'

/-- `ALIASES` (insertion order preserved, as Python dict iteration). -/
def ALIASES : List (String × String) :=
  [("TUIR", "dpr:917:1986"), ("Statuto del contribuente", "l:212:2000")]

/-- `decreto legislativo n\.\s*(\d+)\s+del\s+(\d{4})`, `re.IGNORECASE`. -/
def dlgsPat1 : List Tok :=
  [.lit "decreto legislativo n.".data, wsCls 0 none,
   .grp 1 [digCls 1 none], wsCls 1 none, .lit "del".data, wsCls 1 none,
   .grp 2 [digCls 4 (some 4)]]

/-- `d\.lgs\.\s*(\d+)/(\d{4})`, `re.IGNORECASE`. -/
def dlgsPat2 : List Tok :=
  [.lit "d.lgs.".data, wsCls 0 none, .grp 1 [digCls 1 none],
   .lit "/".data, .grp 2 [digCls 4 (some 4)]]

/-- The DPR pattern is written in the source as a raw string with doubled
backslashes, `r"d\\.?p\\.?r\\.?\\s*(\\d+)/(\\d{4})"`, so the regex the
`re` module actually receives is `d\\.?p\\.?r\\.?\\s*(\\d+)/(\\d{4})`:
literal backslashes, `.?` as any optional character, `s*` and `d+` as
repeated letters `s` and `d`.  The tokens below embed that actual regex,
not the presumably intended `d\.?p\.?r\.?\s*(\d+)/(\d{4})`. -/
def dprPatBroken : List Tok :=
  [.lit "d".data, .lit "\\".data, .cls anyP 0 (some 1) false,
   .lit "p".data, .lit "\\".data, .cls anyP 0 (some 1) false,
   .lit "r".data, .lit "\\".data, .cls anyP 0 (some 1) false,
   .lit "\\".data, .cls (fun c => pyLower c = 's') 0 none false,
   .grp 1 [.lit "\\".data, .cls (fun c => pyLower c = 'd') 1 none false],
   .lit "/".data,
   .grp 2 [.lit "\\".data, .cls (fun c => pyLower c = 'd') 4 (some 4) false]]

/-- `legge\s*(\d+)/(\d{4})`, `re.IGNORECASE`. -/
def leggePat : List Tok :=
  [.lit "legge".data, wsCls 0 none, .grp 1 [digCls 1 none],
   .lit "/".data, .grp 2 [digCls 4 (some 4)]]

/-- `l\.\s*n\.\s*(\d+)/(\d{4})`, `re.IGNORECASE`. -/
def lnPat : List Tok :=
  [.lit "l.".data, wsCls 0 none, .lit "n.".data, wsCls 0 none,
   .grp 1 [digCls 1 none], .lit "/".data, .grp 2 [digCls 4 (some 4)]]

/-- `ACT_PATTERNS`. -/
def ACT_PATTERNS : List (String × List Tok) :=
  [("dlgs", dlgsPat1), ("dlgs", dlgsPat2), ("dpr", dprPatBroken),
   ("l", leggePat), ("l", lnPat)]

/-- `ART_PATTERN`:
`art(?:icolo|\.)\s*(\d+[a-z-]*)(?:,\s*comma\s*(\d+[a-z-]*))?`
`(?:,\s*lettera\s*([a-z]))?(?:,\s*n\.\s*(\d+))?`, `re.IGNORECASE`. -/
def ART_PATTERN : List Tok :=
  [.lit "art".data, .alt [[.lit "icolo".data], [.lit ".".data]],
   wsCls 0 none,
   .grp 1 [digCls 1 none, .cls azDashP 0 none false],
   .opt [.lit ",".data, wsCls 0 none, .lit "comma".data, wsCls 0 none,
         .grp 2 [digCls 1 none, .cls azDashP 0 none false]],
   .opt [.lit ",".data, wsCls 0 none, .lit "lettera".data, wsCls 0 none,
         .grp 3 [.cls azP 1 (some 1) false]],
   .opt [.lit ",".data, wsCls 0 none, .lit "n.".data, wsCls 0 none,
         .grp 4 [digCls 1 none]]]

/-- Case-insensitive substring test (a pure-literal regex `search`). -/
def containsCI (s pat : String) : Bool :=
  containsL (lowerL s.data) (lowerL pat.data)

/-- `RELATION_PATTERNS` are alternations of plain literals, so their
`search` is an any-of case-insensitive substring test. -/
def relationHit : String → String → Bool
  | "AMENDS", t => containsCI t "modificato da" || containsCI t "sostituito da"
      || containsCI t "inserito da"
  | "REPEALS", t => containsCI t "abrogato"
  | "DEROGATES", t => containsCI t "in deroga a"
  | "CITES", t => containsCI t "ai sensi di" || containsCI t "a norma di"
      || containsCI t "ex art"
  | _, _ => false

/-- `_detect_relation` (dict iteration order of `RELATION_PATTERNS`). -/
def detectRelation (text : String) : String :=
  if relationHit "AMENDS" text then "AMENDS"
  else if relationHit "REPEALS" text then "REPEALS"
  else if relationHit "DEROGATES" text then "DEROGATES"
  else if relationHit "CITES" text then "CITES"
  else "CITES"

/-- `canonical_doc_id` from `app/core/utils_ids.py` (the `or "0"`
defaults use Python truthiness). -/
def canonicalDocId (docType : String) (number year : Option String) : String :=
  let numberPart := if optTruthy number then number.getD "0" else "0"
  let yearPart := if optTruthy year then year.getD "0" else "0"
  docType ++ ":" ++ numberPart ++ ":" ++ yearPart

/-- `_snippet(text, position, width=200)`: `start = max(0, position -
200)` (Nat subtraction), `stop = min(len(text), position + 200)`. -/
def snippetF (text : String) (position : Nat) : String :=
  if text.data = [] then "(testo vuoto)"
  else if pyStripL (sliceL text.data (position - 200)
      (min text.data.length (position + 200))) = [] then
    String.mk (text.data.take (min 400 text.data.length))
  else
    String.mk (pyStripL (sliceL text.data (position - 200)
      (min text.data.length (position + 200))))

/-- One `ReferenceExtracted` candidate (the persisted dict).  Every
confidence in the source is an exact decimal float literal (0.4, 0.6,
0.9); confidences are modelled exactly as hundredths, so 0.6 is `60`. -/
structure Ref where
  matchText : String
  rawSnippet : String
  targetCanonicalDoc : Option String := none
  targetArticle : Option String := none
  targetComma : Option String := none
  targetLetter : Option String := none
  targetNumber : Option String := none
  relationType : String
  confidence : Nat
  method : String
deriving DecidableEq, Repr

/-- The alias pass of `extract_references` (`lowered` of the source is
written out as `lowerL text.data`). -/
def aliasCands (text : String) : List Ref :=
  ALIASES.filterMap fun ac =>
    if containsL (lowerL text.data) (lowerL ac.1.data) then
      some { matchText := ac.1
             rawSnippet := snippetF text (indexOfL (lowerL text.data) (lowerL ac.1.data))
             targetCanonicalDoc := some ac.2
             relationType := "CITES"
             confidence := 60
             method := "alias:v1" }
    else none

/-- The act-citation pass of `extract_references`. -/
def actCands (text : String) : List Ref :=
  let t := text.data
  ACT_PATTERNS.flatMap fun dp =>
    (reFindAll dp.2 t).map fun m =>
      let canonical := canonicalDocId dp.1 (capGet m 1) (capGet m 2)
      let window := String.mk (sliceL t (m.start - 80) (m.start + m.len + 80))
      let confidence : Nat :=
        if (reSearch ART_PATTERN window.data).isSome then 90 else 60
      { matchText := matchedText t m
        rawSnippet := snippetF text m.start
        targetCanonicalDoc := some canonical
        relationType := detectRelation text
        confidence := confidence
        method := "regex:v1" }

/-- The bare-article pass of `extract_references`. -/
def artCands (text : String) : List Ref :=
  let t := text.data
  (reFindAll ART_PATTERN t).map fun m =>
    { matchText := matchedText t m
      rawSnippet := snippetF text m.start
      targetArticle := capGet m 1
      targetComma := capGet m 2
      targetLetter := capGet m 3
      targetNumber := capGet m 4
      relationType := detectRelation text
      confidence := 40
      method := "regex:v1" }

/-- `extract_references` (the three passes concatenated in source
order). -/
def extractReferences (text : String) : List Ref :=
  aliasCands text ++ actCands text ++ artCands text

/-! ## `app/parsing/urn_resolver.py` -/

/-- Regex class `[^0-9]`. -/
def nonDigP (c : Char) : Bool := !pyIsDigit c

/-- `DYNAMIC_LAW_PATTERN`:
`(?i)(legge|l\.|d\.lgs\.?|decreto legislativo|d\.l\.|decreto legge|d\.p\.r\.)`
`(?:\s+(?:regionale|provinciale))?[^0-9]*?\b(\d{1,4})\b`
`(?:[^0-9]{1,15})?\b(\d{2,4})\b`. -/
def DYNAMIC_LAW_PATTERN : List Tok :=
  [.grp 1 [.alt [[.lit "legge".data], [.lit "l.".data],
                 [.lit "d.lgs".data, .opt [.lit ".".data]],
                 [.lit "decreto legislativo".data], [.lit "d.l.".data],
                 [.lit "decreto legge".data], [.lit "d.p.r.".data]]],
   .opt [wsCls 1 none, .alt [[.lit "regionale".data], [.lit "provinciale".data]]],
   .cls nonDigP 0 none true,
   .wb, .grp 2 [digCls 1 (some 4)], .wb,
   .opt [.cls nonDigP 1 (some 15) false],
   .wb, .grp 3 [digCls 2 (some 4)], .wb]

/-- Python `int` on a decimal-digit string (the only use site passes the
two-digit year capture). -/
def strToNat (s : String) : Nat :=
  s.data.foldl (fun n c => n * 10 + (c.toNat - 48)) 0

/-- `_build_urn(base_urn, article, comma, letter, number)`. -/
def buildUrn (baseUrn : String) (article comma letter number : Option String) :
    String :=
  let parts :=
    (if optTruthy article then ["art" ++ article.getD ""] else []) ++
    (if optTruthy comma then ["com" ++ comma.getD ""] else []) ++
    (if optTruthy letter then ["let" ++ letter.getD ""] else []) ++
    (if optTruthy number then ["num" ++ number.getD ""] else [])
  let fragment := String.intercalate "-" parts
  if fragment = "" then baseUrn else baseUrn ++ "#" ++ fragment

/-- `_match_alias` (first alias whose lower-cased form is a substring of
the lower-cased text, in `ALIASES` order). -/
def matchAlias (text : String) : Option String :=
  let lowered := lowerL text.data
  (ALIASES.find? fun ac => containsL lowered (lowerL ac.1.data)).map (·.2)

/-- `_match_dynamic_law`. -/
def matchDynamicLaw (text : String) : Option String :=
  match reSearch DYNAMIC_LAW_PATTERN text.data with
  | none => none
  | some m =>
    let tipoRaw := (capGet m 1).getD ""
    let numero := (capGet m 2).getD ""
    let anno0 := (capGet m 3).getD ""
    let anno :=
      if anno0.length = 2 then
        if strToNat anno0 < 50 then "20" ++ anno0 else "19" ++ anno0
      else anno0
    let t := String.mk (lowerL tipoRaw.data)
    let urnType :=
      if containsL t.data "legge".data || containsL t.data "l.".data then "legge"
      else if containsL t.data "d.lgs".data || containsL t.data "legislativo".data then
        "decreto.legislativo"
      else if containsL t.data "d.l".data || containsL t.data "decreto legge".data then
        "decreto.legge"
      else if containsL t.data "d.p.r".data then "decreto.presidente.repubblica"
      else "legge"
    some ("urn:nir:stato:" ++ urnType ++ ":" ++ anno ++ ";" ++ numero)

/-- `UrnResolver(document_urn).resolve(match_text, raw_snippet)`.
Result: `(resolved_urn_or_none, confidence, method)`; the confidence
floats 1.0 / 0.85 / 0.8 / 0.6 / 0.0 are exact decimals, modelled as
hundredths (100 / 85 / 80 / 60 / 0). -/
def urnResolve (documentUrn : Option String) (matchText : String)
    (rawSnippet : String) : Option String × Nat × String :=
  let combined := pyStrip (matchText ++ " " ++ rawSnippet)
  if containsL matchText.data "urn:".data then
    (some ((pySplitWs matchText).headD ""), 100, "explicit")
  else
    let artMatch := reSearch ART_PATTERN matchText.data
    let article := artMatch.bind (capGet · 1)
    let comma := artMatch.bind (capGet · 2)
    let letter := artMatch.bind (capGet · 3)
    let number := artMatch.bind (capGet · 4)
    match matchDynamicLaw combined with
    | some extLawUrn =>
      (some (buildUrn extLawUrn article comma letter number), 85, "dynamic_parsing")
    | none =>
      match matchAlias combined with
      | some aliasUrn =>
        (some (buildUrn aliasUrn article comma letter number), 80, "alias")
      | none =>
        match artMatch, documentUrn with
        | some _, some du =>
          (some (buildUrn du article comma letter number), 60, "contextual")
        | _, _ => (none, 0, "unresolved")

/-! ## An lxml element tree model

An element has a tag (namespaces already stripped, as every consumer
calls `_strip_ns` / splits on `}`), attributes, the text before its
first child (`.text`), children, and the text following it inside its
parent (`.tail`).  The empty string models lxml `None` text/tail, which
is what parsed documents contain in place of empty strings, and
`itertext` skips it exactly as lxml skips `None`. -/

mutual
inductive Elem where
  | mk (tag : String) (attrs : List (String × String)) (text : String)
       (children : ElemList) (tail : String)
inductive ElemList where
  | nil
  | cons (e : Elem) (es : ElemList)
end

def Elem.tag : Elem → String
  | .mk t _ _ _ _ => t

def Elem.attrs : Elem → List (String × String)
  | .mk _ a _ _ _ => a

def Elem.text : Elem → String
  | .mk _ _ tx _ _ => tx

def Elem.childrenL : Elem → ElemList
  | .mk _ _ _ cs _ => cs

def Elem.tail : Elem → String
  | .mk _ _ _ _ tl => tl

/-- `elem.get(name)`. -/
def attrGet (e : Elem) (name : String) : Option String :=
  (e.attrs.find? fun a => a.1 = name).map (·.2)

def ElemList.toList : ElemList → List Elem
  | .nil => []
  | .cons e es => e :: es.toList

mutual
/-- `elem.itertext()`: the non-`None` text chunks of the subtree in
document order (own text, then recursively each child followed by its
tail). -/
def itertextE : Elem → List String
  | .mk _ _ text cs _ => (if text = "" then [] else [text]) ++ itertextL cs
def itertextL : ElemList → List String
  | .nil => []
  | .cons c cs =>
    itertextE c ++ (if c.tail = "" then [] else [c.tail]) ++ itertextL cs
end

mutual
/-- `node.xpath(".//akn:ref")`: all strict descendants tagged `ref`, in
document order (the documents place every element in the akn
namespace, which the model's stripped tags already assume). -/
def refElemsE : Elem → List Elem
  | .mk _ _ _ cs _ => refElemsL cs
def refElemsL : ElemList → List Elem
  | .nil => []
  | .cons c cs =>
    (if c.tag = "ref" then [c] else []) ++ refElemsE c ++ refElemsL cs
end

/-! ## `app/core/tag_config.py` (`DEFAULT_TAG_CONFIG`) -/

def structuralTags : List String :=
  ["article", "articolo", "paragraph", "comma", "clause", "section",
   "part", "chapter", "book", "annex", "allegato", "item", "point", "list"]

def containerTags : List String :=
  ["akomaNtoso", "act", "body", "mainBody", "preamble", "preambolo",
   "preface", "conclusions", "meta", "formula", "citations", "hcontainer",
   "attachment", "attachments", "quotedStructure"]

def inlineTags : List String :=
  ["p", "content", "num", "heading", "subheading", "intro", "alinea",
   "letter", "subpoint", "ins", "del", "mod", "ref", "quotedText",
   "span", "b", "i", "u", "sub", "sup"]

def metadataTags : List String :=
  ["meta", "identification", "publication", "classification", "lifecycle",
   "analysis", "references", "proprietary", "eli", "rdf", "FRBRWork",
   "FRBRExpression", "FRBRManifestation", "FRBRthis", "FRBRuri",
   "FRBRalias", "FRBRdate", "FRBRauthor", "FRBRcountry", "FRBRlanguage"]

/-! ## `app/parsing/akoma_parser.py` -/

/-- Step 1 of `_normalize_whitespace`: `re.sub(r"[\x00-\x1f\x7f]", " ", ·)`. -/
def ctrlToSpace (c : Char) : Char :=
  if c.toNat ≤ 0x1f || c.toNat = 0x7f then ' ' else c

/-- Run collapsing: each maximal run of characters satisfying `p`
becomes a single space (`inRun` records whether the previous character
was part of a run). -/
def collapseGo (p : Char → Bool) : Bool → List Char → List Char
  | _, [] => []
  | inRun, c :: rest =>
    if p c then
      if inRun then collapseGo p true rest else ' ' :: collapseGo p true rest
    else c :: collapseGo p false rest

/-- Step 2: `re.sub(r"\s+", " ", ·)` — each maximal whitespace run
becomes a single space. -/
def collapseWs (l : List Char) : List Char :=
  collapseGo pyIsSpace false l

/-- Step 3: `re.sub(r"\s+([\.,;:])", r"\1", ·)` applied to the output of
step 2, where whitespace runs are single spaces. -/
def rmSpaceBeforePunct : List Char → List Char
  | [] => []
  | [c] => [c]
  | c1 :: c2 :: rest =>
    if pyIsSpace c1 && (c2 = '.' || c2 = ',' || c2 = ';' || c2 = ':') then
      rmSpaceBeforePunct (c2 :: rest)
    else c1 :: rmSpaceBeforePunct (c2 :: rest)

/-- `AkomaNtosoParser._normalize_whitespace`. -/
def akNormalizeWs (s : String) : String :=
  String.mk (pyStripL (rmSpaceBeforePunct (collapseWs (s.data.map ctrlToSpace))))

/-- A `ReferenceOut`. -/
structure RefOut where
  href : String
  text : String
deriving DecidableEq, Repr

/-- A `NodeOut`.  The `text_xml_fragment` field (a re-serialization of
the element, `etree.tostring`) is not modelled; no claim mentions it. -/
structure NodeOut where
  eId : Option String
  canonicalPath : String
  textContent : String
  level : Nat
  references : List RefOut
deriving DecidableEq, Repr

/-- The whole-subtree text `"".join(node.itertext()).strip()`. -/
def subtreeTextStripped (e : Elem) : String :=
  String.mk (pyStripL (String.join (itertextE e)).data)

/-- `AkomaNtosoParser._get_clean_text`.  The source function returns at
its first `return` statement — `return self._normalize_whitespace(text),
refs` with `text = "".join(node.itertext()).strip()` — so the whole
subtree text is absorbed, including the text of structural and container
descendants; the boundary-respecting loop written below that `return` is
unreachable and is therefore not part of this embedding. -/
def akGetCleanText (e : Elem) : String × List RefOut :=
  let text := subtreeTextStripped e
  let refs := (refElemsE e).filterMap fun r =>
    let href := ((attrGet r "href").map id).getD ""
    let t := String.mk (pyStripL (String.join (itertextE r)).data)
    if href ≠ "" || t ≠ "" then some ⟨href, t⟩ else none
  (akNormalizeWs text, refs)

/-- `_build_path(parent_path, node)`. -/
def buildPath (parentPath : String) (e : Elem) : String :=
  let eId := pyOrOpt (attrGet e "eId") (attrGet e "id")
  let segment := if optTruthy eId then e.tag ++ ":" ++ eId.getD "" else e.tag
  if parentPath = "" then segment else parentPath ++ "/" ++ segment

mutual
/-- `AkomaNtosoParser._visit_node` (the in-memory mode): skip metadata
subtrees, emit a node for structural tags with non-empty clean text,
recurse with the extended path and incremented level. -/
def akVisit : Elem → String → Nat → List NodeOut
  | e@(.mk tag _ _ cs _), parentPath, level =>
    if metadataTags.contains tag then []
    else
      let nodePath := buildPath parentPath e
      let own :=
        if structuralTags.contains tag then
          let tr := akGetCleanText e
          if pyStrip tr.1 ≠ "" then
            [{ eId := pyOrOpt (attrGet e "eId") (attrGet e "id")
               canonicalPath := nodePath
               textContent := pyStrip tr.1
               level := level
               references := tr.2 }]
          else []
        else []
      own ++ akVisitList cs nodePath (level + 1)
def akVisitList : ElemList → String → Nat → List NodeOut
  | .nil, _, _ => []
  | .cons c cs, parentPath, level =>
    akVisit c parentPath level ++ akVisitList cs parentPath level
end

/-- `AkomaNtosoParser.parse` restricted to its node list (the FRBR
metadata lookups touch no node and are not modelled). -/
def akParseNodes (root : Elem) : List NodeOut :=
  akVisit root "" 0

/-- `_build_path_from_stack`: non-metadata stack entries joined by `/`. -/
def buildPathFromStack (stack : List (String × Option String)) : String :=
  String.intercalate "/"
    (stack.filterMap fun te =>
      if metadataTags.contains te.1 then none
      else if optTruthy te.2 then some (te.1 ++ ":" ++ te.2.getD "") else some te.1)

/-- The text `_get_clean_text` sees at an element's `end` event in
`parse_iter`.  By that point every child has already fired its own `end`
event, whose handler ran `elem.clear()` on the child and deleted the
child's preceding siblings from the parent, so the parent retains only
its own `.text` plus one cleared (empty) child: `itertext` yields only
`.text`, and the `.//akn:ref` lookup finds nothing. -/
def iterCleanText (e : Elem) : String :=
  akNormalizeWs (String.mk (pyStripL e.text.data))

mutual
/-- `AkomaNtosoParser.parse_iter` restricted to its node list: `start`
events push `(tag, eId-or-id)`; `end` events emit structural nodes with
the stack path, the post-clearing text (`iterCleanText`), `len(stack)`
as level, and no references, then pop and clear. -/
def akIterVisit : Elem → List (String × Option String) → List NodeOut
  | e@(.mk tag _ _ cs _), stack =>
    let st := stack ++ [(tag, pyOrOpt (attrGet e "eId") (attrGet e "id"))]
    akIterVisitList cs st ++
      (if structuralTags.contains tag then
        let txt := iterCleanText e
        if pyStrip txt ≠ "" then
          [{ eId := pyOrOpt (attrGet e "eId") (attrGet e "id")
             canonicalPath := buildPathFromStack st
             textContent := pyStrip txt
             level := st.length
             references := [] }]
        else []
      else [])
def akIterVisitList : ElemList → List (String × Option String) → List NodeOut
  | .nil, _ => []
  | .cons c cs, stack => akIterVisit c stack ++ akIterVisitList cs stack
end

/-- `AkomaNtosoParser.parse_iter` node list for a document rooted at
`root`. -/
def akParseIterNodes (root : Elem) : List NodeOut :=
  akIterVisit root []

/-! ## `app/analysis/conflict_detector.py`

`datetime.date` values are encoded as `yyyymmdd` naturals, an
order-isomorphic encoding of the calendar dates the detector compares;
`dt.date.min` is 0001-01-01 and `dt.date.max` is 9999-12-31. -/

def dateMin : Nat := 10101
def dateMax : Nat := 99991231

/-- The `models.Node` attributes the detector reads. -/
structure DbNode where
  docId : String
  canonicalPath : String
  nodeId : String
  versionId : Nat
  validFrom : Option Nat
  validTo : Option Nat
  isCurrentLaw : Bool
deriving DecidableEq, Repr

/-- The `ConflictCandidate` frozen dataclass (all eleven fields are
required constructor arguments). -/
structure ConflictCandidate where
  docId : String
  canonicalPath : String
  nodeIdA : String
  nodeIdB : String
  versionIdA : Nat
  versionIdB : Nat
  validFromA : Option Nat
  validToA : Option Nat
  validFromB : Option Nat
  validToB : Option Nat
  severity : String
deriving DecidableEq, Repr

/-- `_ranges_overlap`. -/
def rangesOverlap (startA endA startB endB : Option Nat) : Bool :=
  startA.getD dateMin ≤ endB.getD dateMax && startB.getD dateMin ≤ endA.getD dateMax

/-- `_severity_for_overlap` (both checks kept separate, as in the
source). -/
def severityForOverlap (a b : DbNode) : String :=
  if a.isCurrentLaw && b.isCurrentLaw then "critical"
  else if a.validTo = none && b.validTo = none then "critical"
  else "warning"

/-- The candidate built inside `detect_temporal_conflicts` for a
surviving `active_node` and the incoming `node`. -/
def mkCandidate (activeNode node : DbNode) : ConflictCandidate :=
  { docId := node.docId
    canonicalPath := node.canonicalPath
    nodeIdA := activeNode.nodeId
    nodeIdB := node.nodeId
    versionIdA := activeNode.versionId
    versionIdB := node.versionId
    validFromA := activeNode.validFrom
    validToA := activeNode.validTo
    validFromB := node.validFrom
    validToB := node.validTo
    severity := severityForOverlap activeNode node }

/-- The loop of `detect_temporal_conflicts`: reset `active` when the
`(doc_id, canonical_path)` key changes, evict active entries ending
before the incoming start, emit a candidate for every surviving active
entry that passes the explicit overlap test, then append the incoming
node. -/
def detectGo : List DbNode → Option (String × String) → List (Nat × DbNode) →
    List ConflictCandidate → List ConflictCandidate
  | [], _, _, acc => acc
  | n :: rest, cur, active, acc =>
    let key := (n.docId, n.canonicalPath)
    let active0 := if cur = some key then active else []
    let nodeStart := n.validFrom.getD dateMin
    let nodeEnd := n.validTo.getD dateMax
    let active1 := active0.filter fun p => nodeStart ≤ p.1
    let newConflicts := active1.filterMap fun p =>
      if rangesOverlap p.2.validFrom p.2.validTo n.validFrom n.validTo then
        some (mkCandidate p.2 n)
      else none
    detectGo rest (some key) (active1 ++ [(nodeEnd, n)]) (acc ++ newConflicts)

/-- `detect_temporal_conflicts`. -/
def detectTemporalConflicts (nodes : List DbNode) : List ConflictCandidate :=
  detectGo nodes none [] []

/-! ## `app/cli.py` helpers -/

/-- `_normalize_candidate` in `app/cli.py`.  The already-ordered branch
returns the candidate unchanged.  The swap branch calls the
`ConflictCandidate` constructor with only seven of its eleven required
arguments — `valid_from_a`, `valid_to_a`, `valid_from_b` and
`valid_to_b` are omitted — so in Python it raises `TypeError`; that
raising branch is modelled as `none`. -/
def normalizeCandidate (c : ConflictCandidate) : Option ConflictCandidate :=
  if pyStrLe c.nodeIdA c.nodeIdB then some c else none

/-- Python `str.strip("/")`. -/
def stripSlashes (s : String) : String :=
  String.mk (((s.data.dropWhile (· = '/')).reverse.dropWhile (· = '/')).reverse)

/-- Python `str.split(sep)` for a single-character separator (keeps
empty fields, as Python does). -/
def splitOnCharGo (sep : Char) (cur : List Char) (acc : List (List Char)) :
    List Char → List (List Char)
  | [] => (cur.reverse :: acc).reverse
  | c :: rest =>
    if c = sep then splitOnCharGo sep [] (cur.reverse :: acc) rest
    else splitOnCharGo sep (c :: cur) acc rest

def splitOnChar (sep : Char) (s : String) : List String :=
  (splitOnCharGo sep [] [] s.data).map String.mk

/-- Python `str.partition(":")`: the piece before the first colon and
the piece after it (absent colon gives an empty remainder, as in the
source where `partition` then yields `rest = ""`). -/
def partitionColon (s : String) : String × String :=
  let sp := s.data.span (· ≠ ':')
  match sp.2 with
  | [] => (String.mk sp.1, "")
  | _ :: after => (String.mk sp.1, String.mk after)

/-- The `pretty` helper inside `_compute_hierarchy_string`. -/
def prettySeg (seg : String) : String :=
  let pc := partitionColon seg
  let b := pyStrip (String.mk (lowerL pc.1.data))
  let r := pyStrip pc.2
  if b = "art" || b = "articolo" || b = "article" then
    if r ≠ "" then "Art. " ++ r else "Art."
  else if b = "com" || b = "comma" || b = "paragraph" then
    if r ≠ "" then "Comma " ++ r else "Comma"
  else if b = "let" || b = "lett" || b = "letter" || b = "lettera" then
    if r ≠ "" then "lett. " ++ r else "Lettera"
  else if b = "num" || b = "numero" || b = "item" || b = "number" then
    if r ≠ "" then "n. " ++ r else "Numero"
  else if b = "capo" || b = "chapter" then
    if r ≠ "" then "Capo " ++ r else "Capo"
  else if b = "tit" || b = "titolo" || b = "title" then
    if r ≠ "" then "Titolo " ++ r else "Titolo"
  else if r ≠ "" then b ++ " " ++ r
  else b

/-- `_compute_hierarchy_string(doc_canonical, canonical_path)` (the
`doc_canonical` argument is accepted and ignored by the source body). -/
def computeHierarchyString (_docCanonical : Option String)
    (canonicalPath : Option String) : Option String :=
  if ¬ optTruthy canonicalPath then none
  else
    let cp := canonicalPath.getD ""
    let parts := (splitOnChar '/' (stripSlashes cp)).filter (· ≠ "")
    if parts = [] then none
    else
      let skipKeywords : List String :=
        ["akomantoso", "akomanotoso", "akoma", "akn", "it", "act", "main",
         "main.xml"]
      let cleanedParts :=
        parts.filter fun p => ¬ skipKeywords.contains (String.mk (lowerL p.data))
      let cleanedParts := if cleanedParts = [] then parts else cleanedParts
      some (String.intercalate " > " (cleanedParts.map prettySeg))

/-! ## `app/parsing/normattiva_parser.py` (legacy dialect) with
`app/core/utils_text.py` and the `node_text` / `hierarchy_builder`
helpers -/

/-- `normalize_whitespace` step 1: `\r\n` and `\r` become `\n`. -/
def crlfToLf : List Char → List Char
  | [] => []
  | '\r' :: '\n' :: rest => '\n' :: crlfToLf rest
  | '\r' :: rest => '\n' :: crlfToLf rest
  | c :: rest => c :: crlfToLf rest

/-- Step 2: `re.sub(r"[ \t]+", " ", ·)`. -/
def collapseSpaceTab (l : List Char) : List Char :=
  collapseGo (fun c => c = ' ' || c = '\t') false l

/-- Step 3: `re.sub(r"\n{3,}", "\n\n", ·)`: a run of one or two
newlines is kept, a longer run is truncated to two (`k` counts the
newlines already kept from the current run). -/
def squeezeNlGo : Nat → List Char → List Char
  | _, [] => []
  | k, c :: rest =>
    if c = '\n' then
      if k < 2 then '\n' :: squeezeNlGo (k + 1) rest else squeezeNlGo k rest
    else c :: squeezeNlGo 0 rest

def squeezeNl (l : List Char) : List Char :=
  squeezeNlGo 0 l

/-- `normalize_whitespace` from `app/core/utils_text.py` (also
`clean_text` of the node-text helpers). -/
def utilsNormalizeWs (s : String) : String :=
  String.mk (pyStripL (squeezeNl (collapseSpaceTab (crlfToLf s.data))))

/-- `extract_text` of the node-text helpers:
`" ".join(element.itertext())`. -/
def legacyExtractText (e : Elem) : String :=
  String.intercalate " " (itertextE e)

/-- `canonical_path(parts)` from the hierarchy-builder helpers. -/
def canonicalPathJoin (parts : List String) : String :=
  String.intercalate "/" parts

/-- `element.findall(tag)`: direct children with the given tag. -/
def childrenWithTag (e : Elem) (tag : String) : List Elem :=
  e.childrenL.toList.filter fun c => c.tag = tag

/-- `element.find(tag)`: first direct child with the given tag. -/
def firstChildTag (e : Elem) (tag : String) : Option Elem :=
  (childrenWithTag e tag).head?

/-- `element.findtext(tag)`: the `.text` of the first matching child
(`""` when that child has no text), `None` when there is no child. -/
def findText (e : Elem) (tag : String) : Option String :=
  (firstChildTag e tag).map Elem.text

/-- Python `opt or dflt` collapsing to a plain string. -/
def pyOrDflt (o : Option String) (dflt : String) : String :=
  if optTruthy o then o.getD dflt else dflt

/-- The node dict produced by `_build_node`.  The `text_hash` field
(SHA-256 of `text_clean`) and the constant empty `metadata_json` are not
modelled; no claim mentions them. -/
structure LNode where
  nodeType : String
  label : String
  canonicalPath : String
  hierarchyString : Option String
  heading : Option String
  textRaw : String
  textClean : String
  sourceUrl : Option String
deriving DecidableEq, Repr

/-- `_build_node` (with `clean_text = normalize_whitespace`). -/
def legacyBuildNode (nodeType label path textRaw : String)
    (heading : Option String) (hierarchyString : Option String)
    (sourceUrl : Option String) : LNode :=
  { nodeType := nodeType
    label := label
    canonicalPath := path
    hierarchyString := hierarchyString
    heading := heading
    textRaw := textRaw
    textClean := utilsNormalizeWs textRaw
    sourceUrl := sourceUrl }

/-- The `numero` loop inside `_parse_articolo`. -/
def parseNumeri (artId commaId letterId ctxLabel : String)
    (lettera : Elem) (sourceUrl : Option String) : List LNode :=
  (childrenWithTag lettera "numero").map fun numero =>
    let numId := pyOrDflt (attrGet numero "id") "1"
    legacyBuildNode "numero" ("num. " ++ numId)
      (canonicalPathJoin ["art:" ++ artId, "c:" ++ commaId,
        "lett:" ++ letterId, "num:" ++ numId])
      (legacyExtractText numero) none
      (some (ctxLabel ++ " > Comma " ++ commaId ++ " > Lettera " ++ letterId ++
        " > Numero " ++ numId))
      sourceUrl

/-- The `lettera` loop inside `_parse_articolo`. -/
def parseLettere (artId commaId ctxLabel : String) (comma : Elem)
    (sourceUrl : Option String) : List LNode :=
  (childrenWithTag comma "lettera").flatMap fun lettera =>
    let letterId := pyOrDflt (attrGet lettera "id") "a"
    legacyBuildNode "lettera" ("lett. " ++ letterId)
      (canonicalPathJoin ["art:" ++ artId, "c:" ++ commaId, "lett:" ++ letterId])
      (legacyExtractText lettera) none
      (some (ctxLabel ++ " > Comma " ++ commaId ++ " > Lettera " ++ letterId))
      sourceUrl
    :: parseNumeri artId commaId letterId ctxLabel lettera sourceUrl

/-- `_parse_articolo`.  `context_prefix` of the source is `ctxLabel`
here; the `if not comma_elements:` branch of the source is `pass` (no
implicit comma is synthesized) and the `text_raw = text_raw or ""`
statement is the identity on strings. -/
def parseArticolo (a : Elem) (sourceUrl : Option String) : List LNode :=
  let artId := pyOrDflt (attrGet a "id") "1"
  let rawHeading := findText a "rubrica"
  let heading :=
    if optTruthy rawHeading then some (utilsNormalizeWs (rawHeading.getD ""))
    else none
  let ctxLabel := "Articolo " ++ artId ++
    (match heading with | some h => " (" ++ h ++ ")" | none => "")
  let textRaw :=
    match firstChildTag a "testo" with
    | some testo => legacyExtractText testo
    | none => ""
  let artNode := legacyBuildNode "articolo" ("Art. " ++ artId)
    (canonicalPathJoin ["art:" ++ artId]) textRaw heading (some ctxLabel)
    sourceUrl
  artNode ::
    (childrenWithTag a "comma").flatMap fun comma =>
      let commaId := pyOrDflt (attrGet comma "id") "1"
      legacyBuildNode "comma" ("comma " ++ commaId)
        (canonicalPathJoin ["art:" ++ artId, "c:" ++ commaId])
        (legacyExtractText comma) none
        (some (ctxLabel ++ " > Comma " ++ commaId)) sourceUrl
      :: parseLettere artId commaId ctxLabel comma sourceUrl

/-! ## Specification views and fixtures used by the theorems -/

/-- List-literal construction of an element. -/
def elemOf (tag : String) (attrs : List (String × String)) (text : String)
    (children : List Elem) (tail : String) : Elem :=
  .mk tag attrs text (children.foldr ElemList.cons ElemList.nil) tail

mutual
/-- The elements the in-memory traversal reaches (everything outside
metadata subtrees), with the canonical path and depth `_visit_node`
would hand them, in document order. -/
def collectElems : Elem → String → Nat → List (Elem × String × Nat)
  | e@(.mk tag _ _ cs _), parentPath, level =>
    if metadataTags.contains tag then []
    else
      (e, buildPath parentPath e, level) ::
        collectElemsList cs (buildPath parentPath e) (level + 1)
def collectElemsList : ElemList → String → Nat → List (Elem × String × Nat)
  | .nil, _, _ => []
  | .cons c cs, parentPath, level =>
    collectElems c parentPath level ++ collectElemsList cs parentPath level
end

/-- The node `_visit_node` emits for a structural element with
non-empty clean text. -/
def emitNodeOut (e : Elem) (path : String) (level : Nat) : NodeOut :=
  { eId := pyOrOpt (attrGet e "eId") (attrGet e "id")
    canonicalPath := path
    textContent := pyStrip (akGetCleanText e).1
    level := level
    references := (akGetCleanText e).2 }

/-- Emission condition of `_visit_node` as a partial map on reached
elements. -/
def emitF (t : Elem × String × Nat) : Option NodeOut :=
  if t.1.tag ∈ structuralTags ∧ pyStrip (akGetCleanText t.1).1 ≠ ""
  then some (emitNodeOut t.1 t.2.1 t.2.2)
  else none

/-- The `(canonical_path, text_clean)` projection compared by the mode
equivalence property. -/
def cpTextPair (n : NodeOut) : String × String :=
  (n.canonicalPath, n.textContent)

/-- C1 fixture: an `article` whose child `comma` is itself a structural
element. -/
def c1Tree : Elem :=
  elemOf "article" [("eId", "1")] "intro "
    [elemOf "comma" [("eId", "2")] "foo" [] ""] ""

/-- C2 fixture: an `article` whose text lives in an inline `p` child. -/
def c2Tree : Elem :=
  elemOf "akomaNtoso" [] ""
    [elemOf "article" [("eId", "a1")] "" [elemOf "p" [] "hello" [] ""] ""] ""

/-- C6 fixture: a container element carrying its own text. -/
def c6Body : Elem := elemOf "body" [] "hello" [] ""

/-- C3 fixture, overlapping pair: version 1 of `art:5` valid
2001-01-01 … 2010-12-31, version 2 valid from 2009-06-01, still in
force; `is_current_law` is derived as `valid_to is null`. -/
def c3NodeA : DbNode :=
  { docId := "doc1", canonicalPath := "art:5", nodeId := "node-v1-art5"
    versionId := 1, validFrom := some 20010101, validTo := some 20101231
    isCurrentLaw := false }

def c3NodeB : DbNode :=
  { docId := "doc1", canonicalPath := "art:5", nodeId := "node-v2-art5"
    versionId := 2, validFrom := some 20090601, validTo := none
    isCurrentLaw := true }

/-- C3 fixture, adjacent pair: `valid_to` 2005-01-01 against
`valid_from` 2006-01-01. -/
def c3AdjA : DbNode :=
  { docId := "doc1", canonicalPath := "art:5", nodeId := "node-v1-adj"
    versionId := 1, validFrom := some 20010101, validTo := some 20050101
    isCurrentLaw := false }

def c3AdjB : DbNode :=
  { docId := "doc1", canonicalPath := "art:5", nodeId := "node-v2-adj"
    versionId := 2, validFrom := some 20060101, validTo := none
    isCurrentLaw := true }

/-- C4 fixture: overlapping nodes on one path whose ids order as
`"aaa" < "bbb"`. -/
def c4NodeA : DbNode :=
  { docId := "doc1", canonicalPath := "art:1", nodeId := "aaa"
    versionId := 1, validFrom := some 20010101, validTo := none
    isCurrentLaw := true }

def c4NodeB : DbNode :=
  { docId := "doc1", canonicalPath := "art:1", nodeId := "bbb"
    versionId := 2, validFrom := some 20020101, validTo := none
    isCurrentLaw := true }

/-- C10 fixture: a legacy `articolo` with a `rubrica` and a `testo`
child and no `comma` children. -/
def c10Art : Elem :=
  elemOf "articolo" [("id", "7")] ""
    [elemOf "rubrica" [] "Rubrica di prova" [] "",
     elemOf "testo" [] "Testo diretto." [] ""] ""

/-- The text the C10 article folds from its `testo` element. -/
def c10ArtText (a : Elem) : String :=
  match firstChildTag a "testo" with
  | some testo => legacyExtractText testo
  | none => ""

/-- The heading `_parse_articolo` derives from `rubrica`. -/
def c10Heading (a : Elem) : Option String :=
  if optTruthy (findText a "rubrica") then
    some (utilsNormalizeWs ((findText a "rubrica").getD ""))
  else none

/-- The `context_prefix` label of `_parse_articolo`. -/
def c10CtxLabel (a : Elem) : String :=
  "Articolo " ++ pyOrDflt (attrGet a "id") "1" ++
    (match c10Heading a with | some h => " (" ++ h ++ ")" | none => "")

/-! ## Theorems -/

/-- C1: the claim states that the text of a structural or container
descendant never appears in an ancestor node's clean text.  The shipped
`_get_clean_text` returns at its first statement from
`"".join(node.itertext())`, which absorbs the whole subtree; on an
`article` with a structural `comma` child holding `"foo"`, the emitted
article node's text is `"intro foo"` — it contains the structural
descendant's text, while the boundary-respecting code below the early
`return` is unreachable.  This theorem evaluates the parser at that
failing input. -/
theorem c1_structural_descendant_text_absorbed :
    structuralTags.contains "comma" = true ∧
    (akParseNodes c1Tree).map cpTextPair =
      [("article:1", "intro foo"), ("article:1/comma:2", "foo")] ∧
    "foo".data <:+: "intro foo".data := by
  decide

/-- C2: the claim states that `parse` and `parse_iter` yield the same
multiset of `(canonical_path, text_clean)` pairs on any well-formed
input.  On an `article` whose text lives in an inline `p` child, the
in-memory mode emits the node while the streaming mode emits nothing,
because each `end`-event handler clears the closed child before the
parent's own `end` event fires.  This theorem evaluates both modes at
that failing input. -/
theorem c2_parse_iter_drops_mixed_content_text :
    (akParseNodes c2Tree).map cpTextPair =
      [("akomaNtoso/article:a1", "hello")] ∧
    (akParseIterNodes c2Tree).map cpTextPair = [] ∧
    Multiset.ofList ((akParseNodes c2Tree).map cpTextPair) ≠
      Multiset.ofList ((akParseIterNodes c2Tree).map cpTextPair) := by
  refine ⟨by decide, by decide, ?_⟩
  intro h
  have := congrArg Multiset.card h
  simp at this
  revert this
  decide

/-- C3 counterexample: on the overlapping fixture (version 1 with
`valid_to = 2010-12-31`, version 2 still in force, `is_current_law`
derived as `valid_to is null`), the detector does return exactly one
conflict, but its severity is not `critical` as the claim states. -/
theorem c3_severity_not_critical :
    (detectTemporalConflicts [c3NodeA, c3NodeB]).length = 1 ∧
    ¬ ∀ c ∈ detectTemporalConflicts [c3NodeA, c3NodeB], c.severity = "critical" := by
  decide

/-- C3 amended: the overlapping fixture yields exactly one conflict of
severity `warning` (version 1 has a non-null `valid_to` and a false
current-law flag, so neither criticality check fires), and the adjacent
fixture yields zero conflicts. -/
theorem c3_overlap_counts_and_severity :
    (detectTemporalConflicts [c3NodeA, c3NodeB]).map ConflictCandidate.severity =
      ["warning"] ∧
    detectTemporalConflicts [c3AdjA, c3AdjB] = [] := by
  decide

/-- C4: the claim states that detection on `[A,B]` and `[B,A]` yields
the same canonicalized pair with all candidate fields preserved.  On the
order that emits `node_id_a > node_id_b`, `_normalize_candidate` takes
its swap branch, which calls the `ConflictCandidate` constructor without
the four required `valid_from`/`valid_to` arguments and therefore raises
`TypeError` (modelled as `none`) instead of producing the swapped
candidate; the already-ordered direction passes through unchanged. -/
theorem c4_normalize_candidate_swap_fails :
    (detectTemporalConflicts [c4NodeB, c4NodeA]).map
        (fun c => pyStrLe c.nodeIdA c.nodeIdB) = [false] ∧
    (detectTemporalConflicts [c4NodeB, c4NodeA]).map normalizeCandidate = [none] ∧
    (detectTemporalConflicts [c4NodeA, c4NodeB]).map normalizeCandidate =
      (detectTemporalConflicts [c4NodeA, c4NodeB]).map some := by
  decide

/-- C5: the resolver follows the strict priority chain on the concrete
inputs: an explicit URN resolves verbatim at confidence 1.0 (100),
`"Legge 231/2001"` resolves dynamically at 0.85 (85) to a URN containing
`legge:2001;231`, `"TUIR"` resolves through the alias table to
`dpr:917:1986` at 0.8 (80), `"art. 5"` with a document URN resolves
contextually to `urn:doc:x#art5` at 0.6 (60), and a text matching
nothing is `(None, 0.0, "unresolved")`. -/
theorem c5_resolver_priority_concrete :
    urnResolve (some "urn:doc:x") "urn:nir:stato:legge:2001;231" "" =
      (some "urn:nir:stato:legge:2001;231", 100, "explicit") ∧
    urnResolve (some "urn:doc:x") "Legge 231/2001" "" =
      (some "urn:nir:stato:legge:2001;231", 85, "dynamic_parsing") ∧
    "legge:2001;231".data <:+:
      (((urnResolve (some "urn:doc:x") "Legge 231/2001" "").1).getD "").data ∧
    urnResolve (some "urn:doc:x") "TUIR" "" = (some "dpr:917:1986", 80, "alias") ∧
    urnResolve (some "urn:doc:x") "art. 5" "" =
      (some "urn:doc:x#art5", 60, "contextual") ∧
    urnResolve (some "urn:doc:x") "xyz" "" = (none, 0, "unresolved") := by
  decide

/-- C6 counterexample: the claim states that an element is emitted iff
its tag is structural or container and its clean text is non-empty.  A
`body` element (a container tag) with non-empty text `"hello"` is not
emitted: only structural tags emit in `_visit_node`. -/
theorem c6_container_with_text_not_emitted :
    containerTags.contains "body" = true ∧
    pyStrip (akGetCleanText c6Body).1 = "hello" ∧
    akParseNodes c6Body = [] := by
  decide

/-- Joint characterization of `_visit_node` against the reachable
elements: the emitted list is exactly the emission map over the
traversal. -/
theorem akVisit_eq_emit :
    ∀ e : Elem, ∀ pp : String, ∀ l : Nat,
      akVisit e pp l = (collectElems e pp l).filterMap emitF := by
  refine @Elem.rec
    (fun e => ∀ pp : String, ∀ l : Nat,
      akVisit e pp l = (collectElems e pp l).filterMap emitF)
    (fun es => ∀ pp : String, ∀ l : Nat,
      akVisitList es pp l = (collectElemsList es pp l).filterMap emitF)
    ?_ ?_ ?_
  · intro tag attrs text children tail ih pp l
    by_cases hm : tag ∈ metadataTags
    · simp [akVisit, collectElems, hm]
    · by_cases hs : tag ∈ structuralTags
      · by_cases ht :
          pyStrip (akGetCleanText (Elem.mk tag attrs text children tail)).1 = ""
        · simp [akVisit, collectElems, List.filterMap_cons, emitF, Elem.tag,
                hm, hs, ht, ih]
        · simp [akVisit, collectElems, List.filterMap_cons, emitF, emitNodeOut,
                Elem.tag, hm, hs, ht, ih]
      · simp [akVisit, collectElems, List.filterMap_cons, emitF, Elem.tag,
              hm, hs, ih]
  · intro pp l
    rfl
  · intro e es ihe ihes pp l
    simp [akVisitList, collectElemsList, List.filterMap_append, ihe, ihes]

/-- C6 amended: in the Akoma Ntoso dialect the parser emits a node for
an element if and only if the element is reached by the traversal (it
lies outside every metadata subtree), its tag is in `structural_tags`
(container tags alone never emit), and its clean text is non-empty; the
emitted node carries the canonical path and traversal depth that
`_visit_node` assigns to that element. -/
theorem c6_emission_characterization (root : Elem) (n : NodeOut) :
    n ∈ akParseNodes root ↔
      ∃ t, t ∈ collectElems root "" 0 ∧
        t.1.tag ∈ structuralTags ∧
        pyStrip (akGetCleanText t.1).1 ≠ "" ∧
        n = emitNodeOut t.1 t.2.1 t.2.2 := by
  have hrw : akParseNodes root = (collectElems root "" 0).filterMap emitF :=
    akVisit_eq_emit root "" 0
  rw [hrw, List.mem_filterMap]
  constructor
  · rintro ⟨t, ht, he⟩
    unfold emitF at he
    split_ifs at he with h
    exact ⟨t, ht, h.1, h.2, (Option.some.inj he).symm⟩
  · rintro ⟨t, ht, h1, h2, rfl⟩
    refine ⟨t, ht, ?_⟩
    simp [emitF, h1, h2]

/-- C7 counterexample: the claim maps path `art:5/c:2/lett:a` to
`"Art. 5 > Comma 2 > lett. a"`, but the `pretty` table recognizes only
`com`/`comma`/`paragraph` for `"Comma"`, so the segment `c:2` falls back
to `prefix + " " + suffix`. -/
theorem c7_breadcrumb_not_comma :
    computeHierarchyString (some "dpr:917:1986") (some "art:5/c:2/lett:a") ≠
      some "Art. 5 > Comma 2 > lett. a" := by
  decide

/-- C7 amended: the computed breadcrumb for `art:5/c:2/lett:a` is
exactly `"Art. 5 > c 2 > lett. a"` (segments split on `/`, `art` and
`lett` mapped through the label table, the unknown prefix `c` joined
with its suffix by a space, all joined with `" > "`). -/
theorem c7_breadcrumb_value :
    computeHierarchyString (some "dpr:917:1986") (some "art:5/c:2/lett:a") =
      some "Art. 5 > c 2 > lett. a" := by
  decide

/-- C8: the claim states that a standard-form DPR citation such as
`"d.p.r. 917/1986"` yields an act-citation candidate with
`target_canonical_doc = canonical_doc_id("dpr", "917", "1986") =
"dpr:917:1986"`.  The DPR regex is double-escaped in the source, so it
matches only literal backslash sequences and the extraction returns no
candidate at all on that input, even though `canonical_doc_id` would
produce the expected identifier. -/
theorem c8_dpr_citation_yields_no_candidate :
    extractReferences "d.p.r. 917/1986" = [] ∧
    canonicalDocId "dpr" (some "917") (some "1986") = "dpr:917:1986" := by
  decide

/-- `_snippet` never returns the empty string: an empty source text
gets the fixed placeholder, and for a non-empty text either the stripped
±200-character window is non-empty or the fallback prefix of up to 400
characters is. -/
theorem snippetF_ne_empty (t : String) (pos : Nat) : snippetF t pos ≠ "" := by
  unfold snippetF
  split_ifs with h1 h2
  · decide
  · intro he
    have hd : List.take (min 400 t.data.length) t.data = [] := by
      simpa using congrArg String.data he
    rcases List.take_eq_nil_iff.mp hd with h | h
    · have : t.data.length = 0 := by
        omega
      exact h1 (List.length_eq_zero.mp this)
    · exact h1 h
  · intro he
    exact h2 (by simpa using congrArg String.data he)

/-- C9: every candidate returned by `extract_references` carries a
non-empty `raw_snippet` — all three passes fill the field through
`_snippet`, which returns the ±200-character window when its stripped
form is non-empty, the fixed placeholder on empty input, and otherwise a
prefix of up to 400 characters, never the empty string. -/
theorem c9_raw_snippet_nonempty (text : String) (c : Ref)
    (hc : c ∈ extractReferences text) : c.rawSnippet ≠ "" := by
  unfold extractReferences at hc
  rcases List.mem_append.mp hc with h12 | h
  · rcases List.mem_append.mp h12 with h | h
    · unfold aliasCands at h
      rcases List.mem_filterMap.mp h with ⟨ac, _, he⟩
      split_ifs at he with hcond
      cases Option.some.inj he
      exact snippetF_ne_empty text _
    · unfold actCands at h
      rcases List.mem_flatMap.mp h with ⟨dp, _, hm⟩
      rcases List.mem_map.mp hm with ⟨m, _, he⟩
      cases he
      exact snippetF_ne_empty text _
  · unfold artCands at h
    rcases List.mem_map.mp h with ⟨m, _, he⟩
    cases he
    exact snippetF_ne_empty text _

/-- C9 witness: the alias candidate extracted from the text `"TUIR"`
has a non-empty snippet. -/
theorem c9_raw_snippet_nonempty_witness :
    ({ matchText := "TUIR", rawSnippet := "TUIR"
       targetCanonicalDoc := some "dpr:917:1986"
       relationType := "CITES", confidence := 60
       method := "alias:v1" } : Ref).rawSnippet ≠ "" :=
  c9_raw_snippet_nonempty "TUIR" _ (by decide)

/-- C10: a legacy `articolo` with no explicit `comma` children produces
exactly the single article node — path `art:<id>`, text folded from the
article's own `testo` element — and no implicit `comma 1` node is
synthesized: every node with a `c:<id>` path segment comes from the loop
over explicit `comma` children, which is empty here. -/
theorem c10_article_without_commi_single_node (a : Elem) (src : Option String)
    (h : childrenWithTag a "comma" = []) :
    parseArticolo a src =
      [legacyBuildNode "articolo" ("Art. " ++ pyOrDflt (attrGet a "id") "1")
        (canonicalPathJoin ["art:" ++ pyOrDflt (attrGet a "id") "1"])
        (c10ArtText a) (c10Heading a) (some (c10CtxLabel a)) src] := by
  simp [parseArticolo, h, c10ArtText, c10Heading, c10CtxLabel]

/-- C10 witness: the fixture article (a `rubrica` and a `testo` child,
no `comma` children) evaluates to its single article node. -/
theorem c10_article_without_commi_single_node_witness :
    childrenWithTag c10Art "comma" = [] ∧
    parseArticolo c10Art none =
      [legacyBuildNode "articolo" ("Art. " ++ pyOrDflt (attrGet c10Art "id") "1")
        (canonicalPathJoin ["art:" ++ pyOrDflt (attrGet c10Art "id") "1"])
        (c10ArtText c10Art) (c10Heading c10Art) (some (c10CtxLabel c10Art)) none] :=
  ⟨rfl, c10_article_without_commi_single_node c10Art none rfl⟩

end S2P
